import Mathlib

/-!
# Admin-management API: shallow embedding and verification

A shallow embedding of the RBAC admin backend: the user data model, the
JWT-style token payload, the authentication/authorization middleware
(`verifyToken`, `checkRole`, `checkPermission`), and the route handlers for
admin signup, login, and sub-admin create/update/delete.  JavaScript objects
with optional keys are modelled with `Option`; JavaScript truthiness of the
relevant values (`undefined`, `""`, `false`) is modelled explicitly.
-/

namespace AdminApi

/-- The two roles of the system: `"admin"` and `"sub-admin"`. -/
inductive Role
  | admin
  | subAdmin
deriving DecidableEq

/-- The four fixed permission flag names. -/
inductive PermName
  | dashboard
  | collegeManagement
  | contentEditing
  | viewData
deriving DecidableEq

/-- A permissions object as stored in a document or a token payload: each of
the four keys may be absent (`none`, i.e. JS `undefined`) or hold a boolean. -/
structure PermRecord where
  dashboard : Option Bool
  collegeManagement : Option Bool
  contentEditing : Option Bool
  viewData : Option Bool
deriving DecidableEq

/-- Key lookup `permissions[name]` on a permissions object. -/
def PermRecord.get (r : PermRecord) : PermName → Option Bool
  | .dashboard => r.dashboard
  | .collegeManagement => r.collegeManagement
  | .contentEditing => r.contentEditing
  | .viewData => r.viewData

/-- The empty permissions object `{}`. -/
def emptyPerms : PermRecord := ⟨none, none, none, none⟩

/-- The all-`true` permissions object written literally in the admin-signup
handler. -/
def allTruePerms : PermRecord := ⟨some true, some true, some true, some true⟩

/-- A permissions object with all four keys present and `false`. -/
def allFalsePerms : PermRecord := ⟨some false, some false, some false, some false⟩

/-- The JS string for each permission name (used in denial messages). -/
def permNameStr : PermName → String
  | .dashboard => "dashboard"
  | .collegeManagement => "collegeManagement"
  | .contentEditing => "contentEditing"
  | .viewData => "viewData"

/-- JS truthiness of a possibly-absent boolean: only a present `true` is
truthy (`undefined` and `false` are falsy). -/
def jsTruthyOpt : Option Bool → Bool
  | some true => true
  | _ => false

/-- The decoded token claims attached to `req.user` by `verifyToken`:
`{id, email, role, permissions}`.  The `permissions` field of a token payload
may be absent entirely. -/
structure IdentityContext where
  id : Nat
  email : String
  role : Role
  permissions : Option PermRecord
deriving DecidableEq

/-- An HTTP error response: `res.status(s).json({message})`. -/
structure HttpResponse where
  status : Nat
  message : String
deriving DecidableEq

/-- A single-quote character, for building the denial message of
`checkPermission` without a literal quote in the source. -/
def squote : String := String.singleton (Char.ofNat 39)

/-- The message `checkPermission` sends on denial; it interpolates the
requested permission name. -/
def permDeniedMsg (p : PermName) : String :=
  "Access denied: " ++ squote ++ permNameStr p ++ squote ++ " permission required"

/-- `checkRole(role)` from `src/middleware/rbac.js`: 401 if `req.user` is
absent, 403 if `req.user.role !== role`, otherwise pass. -/
def checkRole (r : Role) (user : Option IdentityContext) : Except HttpResponse Unit :=
  match user with
  | none => .error ⟨401, "Authentication required"⟩
  | some u =>
      if u.role = r then .ok ()
      else .error ⟨403, "Access denied: Insufficient permissions"⟩

/-- `checkPermission(permission)` from `src/middleware/rbac.js`: 401 if
`req.user` is absent; pass unconditionally if `req.user.role === "admin"`;
otherwise 403 if `!req.user.permissions || !req.user.permissions[permission]`;
otherwise pass. -/
def checkPermission (p : PermName) (user : Option IdentityContext) : Except HttpResponse Unit :=
  match user with
  | none => .error ⟨401, "Authentication required"⟩
  | some u =>
      if u.role = Role.admin then .ok ()
      else
        match u.permissions with
        | none => .error ⟨403, permDeniedMsg p⟩
        | some ps =>
            if jsTruthyOpt (ps.get p) then .ok ()
            else .error ⟨403, permDeniedMsg p⟩

/-- The token-bearing parts of an inbound request:
`req.headers.authorization` and `req.cookies.token`, each possibly absent. -/
structure AuthRequest where
  authorizationHeader : Option String
  cookieToken : Option String

/-- JS `String.prototype.split(" ")` on a list of characters, with an
accumulator for the chunk being built. -/
def jsSplitAux : List Char → List Char → List (List Char)
  | [], acc => [acc.reverse]
  | c :: cs, acc =>
      if c = ' ' then acc.reverse :: jsSplitAux cs []
      else jsSplitAux cs (c :: acc)

/-- JS `s.split(" ")`. -/
def jsSplit (s : String) : List String :=
  (jsSplitAux s.toList []).map (fun l => String.mk l)

/-- `req.headers.authorization?.split(" ")[1]`: absent when the header is
absent or has no second space-separated chunk. -/
def headerToken (req : AuthRequest) : Option String :=
  req.authorizationHeader.bind (fun h => (jsSplit h).get? 1)

/-- JS truthiness of a possibly-absent string: `undefined` and `""` are
falsy. -/
def jsStrTruthy : Option String → Bool
  | none => false
  | some s => !s.isEmpty

/-- `req.headers.authorization?.split(" ")[1] || req.cookies.token`: the
header-derived token when it is truthy, else the cookie. -/
def extractToken (req : AuthRequest) : Option String :=
  if jsStrTruthy (headerToken req) then headerToken req else req.cookieToken

/-- `verifyToken` from `src/middleware/auth.js`, parametrised by the token
codec `decode` (`jwt.verify` with the configured secret): 401 when no truthy
token was found, 401 when `decode` fails, otherwise the decoded identity
context.  The function takes no credential store: it depends only on the
request and the codec. -/
def verifyToken (decode : String → Option IdentityContext) (req : AuthRequest) :
    Except HttpResponse IdentityContext :=
  match extractToken req with
  | none => .error ⟨401, "Authentication required"⟩
  | some t =>
      if t.isEmpty then .error ⟨401, "Authentication required"⟩
      else
        match decode t with
        | some ctx => .ok ctx
        | none => .error ⟨401, "Invalid or expired token"⟩

/-- A persisted user document: `{_id, name, email, password, role,
permissions}`, with `password` holding the stored one-way derivation. -/
structure User where
  id : Nat
  name : String
  email : String
  password : String
  role : Role
  permissions : PermRecord
deriving DecidableEq

/-- The claims `generateToken` signs into the JWT:
`{id, email, role, permissions}`. -/
structure TokenPayload where
  id : Nat
  email : String
  role : Role
  permissions : PermRecord
deriving DecidableEq

/-- `generateToken` from `src/middleware/auth.js` (the signed payload). -/
def generateToken (u : User) : TokenPayload :=
  ⟨u.id, u.email, u.role, u.permissions⟩

/-- The user object a handler embeds in its JSON body (`user` on login,
`subAdmin` on create/update); the create body carries no `role` key. -/
structure UserBody where
  id : Nat
  name : String
  email : String
  role : Option Role
  permissions : PermRecord
deriving DecidableEq

/-- A lifecycle handler response: status, message, and the optional `token`
and user-object keys of the JSON body (an absent key is `none`). -/
structure ApiResponse where
  status : Nat
  message : String
  token : Option TokenPayload
  user : Option UserBody
deriving DecidableEq

/-- The query `User.findOne({role: "admin"})` predicate. -/
def isAdminRecord (u : User) : Bool := decide (u.role = Role.admin)

/-- The query `User.findOne({email})` predicate. -/
def hasEmail (e : String) (u : User) : Bool := decide (u.email = e)

/-- Modelled from the spec: the Mongoose `User` schema (models/User.js is not
under src/) declares the four permission flags with default `false` —
"`permissions` always has all four keys present (no partial records); unset
keys behave as `false`" — so saving a document fills each unset flag with
`false`. -/
def applySchemaDefaults (p : PermRecord) : PermRecord :=
  ⟨some (p.dashboard.getD false), some (p.collegeManagement.getD false),
    some (p.contentEditing.getD false), some (p.viewData.getD false)⟩

/-- The `POST /admin/signup` handler from `src/routes/auth.js`: reject with
400 when an admin-role record exists, otherwise save a new admin user with
all four permission flags written `true` and answer 201 with a token (and no
user object in the body).  `derive` is the one-way password derivation of the
pre-save hook, `freshId` the store-assigned id. -/
def adminSignup (derive : String → String) (freshId : Nat) (st : List User)
    (name email password : String) : List User × ApiResponse :=
  match st.find? isAdminRecord with
  | some _ => (st, ⟨400, "Admin account already exists", none, none⟩)
  | none =>
      let admin : User :=
        ⟨freshId, name, email, derive password, Role.admin,
          applySchemaDefaults allTruePerms⟩
      (st ++ [admin],
        ⟨201, "Admin account created successfully",
          some (generateToken admin), none⟩)

/-- The `POST /login` handler from `src/routes/auth.js`: find the user by
email, verify the password, and either answer 401 `Invalid credentials` (for
both failure causes) or 200 with a token and a redacted user view.
`compare` is `user.comparePassword` (the bcrypt comparison against the
stored derivation, defined in the model file). -/
def login (compare : String → String → Bool) (st : List User)
    (email password : String) : ApiResponse :=
  match st.find? (hasEmail email) with
  | none => ⟨401, "Invalid credentials", none, none⟩
  | some u =>
      if compare password u.password then
        ⟨200, "Login successful", some (generateToken u),
          some ⟨u.id, u.name, u.email, some u.role, u.permissions⟩⟩
      else ⟨401, "Invalid credentials", none, none⟩

/-- The `POST /sub-admin` handler from `src/routes/admin.js` (after the
`adminOnly` middleware chain): reject 400 when the email is in use, otherwise
save a sub-admin whose permissions are `permissions || {}` completed by the
schema defaults, and answer 201 with the created record (no role key, no
token). -/
def createSubAdmin (derive : String → String) (freshId : Nat) (st : List User)
    (name email password : String) (permissions : Option PermRecord) :
    List User × ApiResponse :=
  match st.find? (hasEmail email) with
  | some _ => (st, ⟨400, "Email already in use", none, none⟩)
  | none =>
      let subAdmin : User :=
        ⟨freshId, name, email, derive password, Role.subAdmin,
          applySchemaDefaults (permissions.getD emptyPerms)⟩
      (st ++ [subAdmin],
        ⟨201, "Sub-admin created successfully", none,
          some ⟨subAdmin.id, subAdmin.name, subAdmin.email, none,
            subAdmin.permissions⟩⟩)

/-- The filter `{_id: id, role: "sub-admin"}` of the get/update/delete
handlers. -/
def matchesSubAdmin (id : Nat) (u : User) : Bool :=
  decide (u.id = id ∧ u.role = Role.subAdmin)

/-- The `$set` document of the update handler, with Mongoose stripping keys
whose value is `undefined`: a supplied field replaces the old value, an
omitted one keeps it; `role` and `password` are not in the document. -/
def updateFields (name email : Option String) (perms : Option PermRecord)
    (u : User) : User :=
  ⟨u.id, name.getD u.name, email.getD u.email, u.password, u.role,
    perms.getD u.permissions⟩

/-- Replace the first record satisfying `p` (what `findOneAndUpdate`
touches). -/
def updateFirst (p : User → Bool) (f : User → User) : List User → List User
  | [] => []
  | u :: rest => if p u then f u :: rest else u :: updateFirst p f rest

/-- Remove the first record satisfying `p` (what `findOneAndDelete`
removes). -/
def deleteFirst (p : User → Bool) : List User → List User
  | [] => []
  | u :: rest => if p u then rest else u :: deleteFirst p rest

/-- The `PUT /sub-admin/:id` handler from `src/routes/admin.js`:
`findOneAndUpdate({_id, role: "sub-admin"}, {$set: {name, email,
permissions}}, {new: true})`; 404 when no sub-admin record with that id
exists. -/
def updateSubAdmin (st : List User) (id : Nat) (name email : Option String)
    (perms : Option PermRecord) : List User × ApiResponse :=
  match st.find? (matchesSubAdmin id) with
  | none => (st, ⟨404, "Sub-admin not found", none, none⟩)
  | some u =>
      let u2 := updateFields name email perms u
      (updateFirst (matchesSubAdmin id) (updateFields name email perms) st,
        ⟨200, "Sub-admin updated successfully", none,
          some ⟨u2.id, u2.name, u2.email, some u2.role, u2.permissions⟩⟩)

/-- The `DELETE /sub-admin/:id` handler from `src/routes/admin.js`:
`findOneAndDelete({_id, role: "sub-admin"})`; 404 when no sub-admin record
with that id exists. -/
def deleteSubAdmin (st : List User) (id : Nat) : List User × ApiResponse :=
  match st.find? (matchesSubAdmin id) with
  | none => (st, ⟨404, "Sub-admin not found", none, none⟩)
  | some _ =>
      (deleteFirst (matchesSubAdmin id) st,
        ⟨200, "Sub-admin deleted successfully", none, none⟩)

end AdminApi

namespace AdminApi

theorem jsSplitAux_of_no_space (l acc : List Char) (h : ' ' ∉ l) :
    jsSplitAux l acc = [acc.reverse ++ l] := by
  induction l generalizing acc with
  | nil => simp [jsSplitAux]
  | cons c cs ih =>
      have hc : ¬ c = ' ' := by
        intro hceq
        exact h (by rw [hceq] at *; exact List.mem_cons_self _ _)
      have hcs : ' ' ∉ cs := fun hm => h (List.mem_cons_of_mem _ hm)
      simp [jsSplitAux, hc, ih _ hcs]

theorem jsSplit_no_space (t : String) (h : ' ' ∉ t.toList) :
    jsSplit t = [t] := by
  unfold jsSplit
  rw [jsSplitAux_of_no_space t.toList [] h]
  rfl

theorem jsSplitAux_bearer (l : List Char) :
    jsSplitAux ('B' :: 'e' :: 'a' :: 'r' :: 'e' :: 'r' :: ' ' :: l) [] =
      ['B', 'e', 'a', 'r', 'e', 'r'] :: jsSplitAux l [] := rfl

theorem jsSplit_bearer (t : String) :
    jsSplit ("Bearer " ++ t) = "Bearer" :: jsSplit t := by
  have hdata : ("Bearer " ++ t).toList =
      'B' :: 'e' :: 'a' :: 'r' :: 'e' :: 'r' :: ' ' :: t.toList := by
    show ("Bearer " ++ t).data = _
    rw [String.data_append]
    rfl
  unfold jsSplit
  rw [hdata, jsSplitAux_bearer]
  rfl

theorem verifyToken_error_shape (decode : String → Option IdentityContext)
    (req : AuthRequest) (r1 : HttpResponse)
    (h : verifyToken decode req = .error r1) :
    r1 = ⟨401, "Authentication required"⟩ ∨
      r1 = ⟨401, "Invalid or expired token"⟩ := by
  unfold verifyToken at h
  split at h
  · exact Or.inl (by simpa using h.symm)
  · split at h
    · exact Or.inl (by simpa using h.symm)
    · split at h
      · simp at h
      · exact Or.inr (by simpa using h.symm)

theorem checkRole_error_shape (r : Role) (ctx : IdentityContext)
    (r2 : HttpResponse) (h : checkRole r (some ctx) = .error r2) :
    r2 = ⟨403, "Access denied: Insufficient permissions"⟩ := by
  simp only [checkRole] at h
  split at h
  · simp at h
  · simpa using h.symm

theorem checkPermission_error_shape (p : PermName) (ctx : IdentityContext)
    (r2 : HttpResponse) (h : checkPermission p (some ctx) = .error r2) :
    r2 = ⟨403, permDeniedMsg p⟩ := by
  simp only [checkPermission] at h
  split at h
  · simp at h
  · split at h
    · simpa using h.symm
    · split at h
      · simp at h
      · simpa using h.symm

/-- C1: for every identity context whose role is `admin`, `checkPermission`
allows the request for every one of the four permission names and for every
value of the `permissions` field (present or absent, any flags): the admin
bypass fires before the permissions record is consulted. -/
theorem admin_bypass_all_permissions (p : PermName) (i : Nat) (e : String)
    (perms : Option PermRecord) :
    checkPermission p (some ⟨i, e, Role.admin, perms⟩) = .ok () := rfl

/-- C2: for every identity context whose role is not `admin` and whose
permissions record is present, `checkPermission` allows exactly when the
stored flag for the requested name is `true`, and otherwise denies with
403 Forbidden; in particular an unset (`none`) or `false` flag is denied. -/
theorem subadmin_permission_gate (p : PermName) (i : Nat) (e : String) (r : Role)
    (ps : PermRecord) (hr : r ≠ Role.admin) :
    checkPermission p (some ⟨i, e, r, some ps⟩) =
      (if ps.get p = some true then .ok () else .error ⟨403, permDeniedMsg p⟩) := by
  simp only [checkPermission, if_neg hr]
  rcases h : ps.get p with _ | b
  · simp [jsTruthyOpt, h]
  · cases b <;> simp [jsTruthyOpt, h]

/-- Witness for C2: a sub-admin with `viewData = false` is denied with 403. -/
theorem subadmin_permission_gate_witness :
    checkPermission PermName.viewData
        (some ⟨0, "s", Role.subAdmin, some allFalsePerms⟩) =
      .error ⟨403, permDeniedMsg PermName.viewData⟩ := by
  have h := subadmin_permission_gate PermName.viewData 0 "s" Role.subAdmin
    allFalsePerms (by decide)
  simpa [allFalsePerms, PermRecord.get] using h

/-- C10: for every identity context with a non-admin role and no
`permissions` field at all, `checkPermission` denies with 403 for every
permission name (no crash), and the outcome is the same as for a context
whose flags are all present and `false`: the missing-record case is handled
by the same guard as a false flag. -/
theorem missing_permissions_record_denied (p : PermName) (i : Nat) (e : String)
    (r : Role) (hr : r ≠ Role.admin) :
    checkPermission p (some ⟨i, e, r, none⟩) = .error ⟨403, permDeniedMsg p⟩ ∧
      checkPermission p (some ⟨i, e, r, none⟩) =
        checkPermission p (some ⟨i, e, r, some allFalsePerms⟩) := by
  constructor
  · simp [checkPermission, if_neg hr]
  · cases p <;> simp [checkPermission, if_neg hr, jsTruthyOpt, allFalsePerms, PermRecord.get]

/-- Witness for C10: a sub-admin token without a permissions claim is denied
`dashboard` with 403, exactly as a token with all flags false. -/
theorem missing_permissions_record_denied_witness :
    checkPermission PermName.dashboard (some ⟨1, "s", Role.subAdmin, none⟩) =
        .error ⟨403, permDeniedMsg PermName.dashboard⟩ ∧
      checkPermission PermName.dashboard (some ⟨1, "s", Role.subAdmin, none⟩) =
        checkPermission PermName.dashboard
          (some ⟨1, "s", Role.subAdmin, some allFalsePerms⟩) :=
  missing_permissions_record_denied PermName.dashboard 1 "s" Role.subAdmin (by decide)

/-- C6: the authentication gate takes its candidate token from the
`Authorization: Bearer` header when one is present (header has priority),
otherwise from the `token` cookie; when neither source yields a truthy token
it fails 401 `Authentication required` — for every codec, and without any
credential-store argument at all — and when decoding the chosen token fails
it fails 401 `Invalid or expired token`. -/
theorem token_sources_and_auth_gate (decode : String → Option IdentityContext)
    (req : AuthRequest) :
    (∀ t, req.authorizationHeader = some ("Bearer " ++ t) → t.isEmpty = false →
        ' ' ∉ t.toList → extractToken req = some t) ∧
      (req.authorizationHeader = none → extractToken req = req.cookieToken) ∧
      (extractToken req = none →
        verifyToken decode req = .error ⟨401, "Authentication required"⟩) ∧
      (extractToken req = some "" →
        verifyToken decode req = .error ⟨401, "Authentication required"⟩) ∧
      (∀ t, extractToken req = some t → t.isEmpty = false → decode t = none →
        verifyToken decode req = .error ⟨401, "Invalid or expired token"⟩) := by
  refine ⟨?_, ?_, ?_, ?_, ?_⟩
  · intro t h hne hns
    have hh : headerToken req = some t := by
      simp [headerToken, h, jsSplit_bearer, jsSplit_no_space t hns]
    simp [extractToken, hh, jsStrTruthy, hne]
  · intro h
    simp [extractToken, headerToken, h, jsStrTruthy]
  · intro h
    simp [verifyToken, h]
  · intro h
    unfold verifyToken
    rw [h]
    rfl
  · intro t h hne hd
    simp [verifyToken, h, hne, hd]

/-- Witness for C6: with header `Bearer abc` and a cookie also present, the
header wins, and a codec that rejects everything yields 401
`Invalid or expired token`. -/
theorem token_sources_and_auth_gate_witness :
    extractToken ⟨some ("Bearer " ++ "abc"), some "ck"⟩ = some "abc" ∧
      verifyToken (fun _ => none) ⟨some ("Bearer " ++ "abc"), some "ck"⟩ =
        .error ⟨401, "Invalid or expired token"⟩ := by
  have h := token_sources_and_auth_gate (fun _ => none)
    ⟨some ("Bearer " ++ "abc"), some "ck"⟩
  have h1 := h.1 "abc" rfl (by decide) (by decide)
  exact ⟨h1, h.2.2.2.2 "abc" h1 (by decide) rfl⟩

/-- Counterexample to C3 as stated: a request failing authentication (no
token anywhere) answers `Authentication required`, while a request failing
authorization (sub-admin hitting an admin-only route) answers
`Access denied: Insufficient permissions` — the two messages differ, so the
failures are distinguishable. -/
theorem authn_authz_messages_differ_cex :
    verifyToken (fun _ => none) ⟨none, none⟩ =
        .error ⟨401, "Authentication required"⟩ ∧
      checkRole Role.admin (some ⟨0, "s", Role.subAdmin, none⟩) =
        .error ⟨403, "Access denied: Insufficient permissions"⟩ ∧
      ("Authentication required" : String) ≠
        "Access denied: Insufficient permissions" :=
  ⟨rfl, rfl, by decide⟩

/-- C3 (amended): authentication failures and authorization denials are
distinguishable, not indistinguishable: every authentication failure is a 401
whose message is `Authentication required` or `Invalid or expired token`,
every authorization denial (role or permission, with an identity present) is
a 403 whose message starts `Access denied`, and no message is shared between
the two kinds — indeed `checkPermission` embeds the requested permission name
in its message. -/
theorem authn_authz_failures_distinguishable
    (decode : String → Option IdentityContext) (req : AuthRequest)
    (ctx : IdentityContext) (r : Role) (p : PermName) (r1 r2 : HttpResponse)
    (h1 : verifyToken decode req = .error r1)
    (h2 : checkRole r (some ctx) = .error r2 ∨
      checkPermission p (some ctx) = .error r2) :
    r1.status = 401 ∧ r2.status = 403 ∧ r1.message ≠ r2.message := by
  have hr1 := verifyToken_error_shape decode req r1 h1
  have hr2 : r2 = ⟨403, "Access denied: Insufficient permissions"⟩ ∨
      r2 = ⟨403, permDeniedMsg p⟩ := by
    rcases h2 with h2 | h2
    · exact Or.inl (checkRole_error_shape r ctx r2 h2)
    · exact Or.inr (checkPermission_error_shape p ctx r2 h2)
  rcases hr1 with hr1 | hr1 <;> rcases hr2 with hr2 | hr2 <;>
    subst hr1 <;> subst hr2 <;>
    refine ⟨rfl, rfl, ?_⟩ <;> cases p <;> decide

/-- Witness for C3 (amended): a missing-token failure against a sub-admin
role denial: 401 vs 403 and different messages. -/
theorem authn_authz_failures_distinguishable_witness :
    (⟨401, "Authentication required"⟩ : HttpResponse).status = 401 ∧
      (⟨403, "Access denied: Insufficient permissions"⟩ : HttpResponse).status = 403 ∧
      (⟨401, "Authentication required"⟩ : HttpResponse).message ≠
        (⟨403, "Access denied: Insufficient permissions"⟩ : HttpResponse).message :=
  authn_authz_failures_distinguishable (fun _ => none) ⟨none, none⟩
    ⟨0, "s", Role.subAdmin, none⟩ Role.admin PermName.dashboard _ _ rfl (Or.inl rfl)

theorem find?_decomp (p : User → Bool) (f : User → User) (st : List User)
    (u : User) (h : st.find? p = some u) :
    ∃ pre post, st = pre ++ u :: post ∧ (∀ v ∈ pre, p v = false) ∧
      updateFirst p f st = pre ++ f u :: post ∧
      deleteFirst p st = pre ++ post := by
  induction st with
  | nil => simp [List.find?] at h
  | cons v rest ih =>
      cases hp : p v with
      | true =>
          have hv : v = u := by
            rw [List.find?_cons_of_pos _ hp] at h
            exact Option.some.inj h
          subst hv
          exact ⟨[], rest, rfl, by simp, by simp [updateFirst, hp],
            by simp [deleteFirst, hp]⟩
      | false =>
          rw [List.find?_cons_of_neg _ (by simp [hp])] at h
          obtain ⟨pre, post, hst, hpre, hupd, hdel⟩ := ih h
          refine ⟨v :: pre, post, by simp [hst], ?_, ?_, ?_⟩
          · intro w hw
            rcases List.mem_cons.mp hw with hw | hw
            · subst hw; exact hp
            · exact hpre w hw
          · simp [updateFirst, hp, hupd]
          · simp [deleteFirst, hp, hdel]

/-- C4: a login whose email matches no record, and a login whose record
exists but whose password fails the stored-derivation comparison, both
produce the very same response: 401, message `Invalid credentials`, no token
and no user — the two failure causes are indistinguishable to the caller. -/
theorem login_invalid_credentials_uniform
    (compare : String → String → Bool) (st : List User) (e pw : String)
    (h : ∀ u, st.find? (hasEmail e) = some u → compare pw u.password = false) :
    login compare st e pw = ⟨401, "Invalid credentials", none, none⟩ := by
  unfold login
  cases hf : st.find? (hasEmail e) with
  | none => rfl
  | some u => simp [h u hf]

/-- Witness for C4: a wrong password against a present record answers 401
`Invalid credentials` with no token and no user object. -/
theorem login_invalid_credentials_uniform_witness :
    login (fun _ _ => false)
        [⟨0, "Admin", "admin@example.com", "h", Role.admin, allTruePerms⟩]
        "admin@example.com" "pw" = ⟨401, "Invalid credentials", none, none⟩ :=
  login_invalid_credentials_uniform (fun _ _ => false)
    [⟨0, "Admin", "admin@example.com", "h", Role.admin, allTruePerms⟩]
    "admin@example.com" "pw" (fun _ _ => rfl)

/-- Counterexample to C5 as stated: on an empty store the signup succeeds
(201) but the response body carries no user object at all — the handler
returns only a message and a token, not the new User. -/
theorem adminSignup_returns_no_user_cex :
    (adminSignup (fun s => s) 0 [] "Admin" "admin@example.com" "pw").2.status = 201 ∧
      (adminSignup (fun s => s) 0 [] "Admin" "admin@example.com" "pw").2.user = none :=
  ⟨rfl, rfl⟩

/-- C5 (amended): when an admin-role record exists the signup fails 400 with
the store unchanged; otherwise it appends a user with role `admin` and all
four permission flags `true` and answers 201 with an issued token — but the
response body does not include the created User (only a message and the
token). -/
theorem adminSignup_correct (derive : String → String) (freshId : Nat)
    (st : List User) (n e pw : String) :
    (st.find? isAdminRecord = none →
        adminSignup derive freshId st n e pw =
          (st ++ [⟨freshId, n, e, derive pw, Role.admin, allTruePerms⟩],
            ⟨201, "Admin account created successfully",
              some ⟨freshId, e, Role.admin, allTruePerms⟩, none⟩)) ∧
      (∀ a, st.find? isAdminRecord = some a →
        adminSignup derive freshId st n e pw =
          (st, ⟨400, "Admin account already exists", none, none⟩)) := by
  constructor
  · intro h
    simp [adminSignup, h, generateToken, applySchemaDefaults, allTruePerms]
  · intro a h
    simp [adminSignup, h]

/-- Witness for C5 (amended): signup on an empty store creates the admin with
all flags `true` and answers 201 with a token and no user object. -/
theorem adminSignup_correct_witness :
    adminSignup (fun s => s) 0 [] "Admin" "admin@example.com" "pw" =
      ([⟨0, "Admin", "admin@example.com", "pw", Role.admin, allTruePerms⟩],
        ⟨201, "Admin account created successfully",
          some ⟨0, "admin@example.com", Role.admin, allTruePerms⟩, none⟩) :=
  (adminSignup_correct (fun s => s) 0 [] "Admin" "admin@example.com" "pw").1 rfl

/-- C7: the update fails 404 (store unchanged) when no record with the given
id and role sub-admin exists; otherwise exactly the first matching record is
rewritten, a supplied field replaces the old value, an omitted field keeps
its previous value, and `id`, `password` and in particular `role` are never
altered by this path. -/
theorem updateSubAdmin_frame (st : List User) (id : Nat)
    (name email : Option String) (perms : Option PermRecord) :
    (st.find? (matchesSubAdmin id) = none →
        updateSubAdmin st id name email perms =
          (st, ⟨404, "Sub-admin not found", none, none⟩)) ∧
      (∀ u, st.find? (matchesSubAdmin id) = some u →
        ∃ pre post, st = pre ++ u :: post ∧
          (∀ v ∈ pre, matchesSubAdmin id v = false) ∧
          (updateSubAdmin st id name email perms).1 =
            pre ++ updateFields name email perms u :: post) ∧
      (∀ u : User, (updateFields name email perms u).role = u.role ∧
        (updateFields name email perms u).id = u.id ∧
        (updateFields name email perms u).password = u.password ∧
        (updateFields name email perms u).name = name.getD u.name ∧
        (updateFields name email perms u).email = email.getD u.email ∧
        (updateFields name email perms u).permissions = perms.getD u.permissions) := by
  refine ⟨?_, ?_, ?_⟩
  · intro h
    simp [updateSubAdmin, h]
  · intro u hu
    obtain ⟨pre, post, hst, hpre, hupd, _⟩ :=
      find?_decomp (matchesSubAdmin id) (updateFields name email perms) st u hu
    exact ⟨pre, post, hst, hpre, by simp [updateSubAdmin, hu, hupd]⟩
  · intro u
    exact ⟨rfl, rfl, rfl, rfl, rfl, rfl⟩

/-- Witness for C7: updating a missing id fails 404 and leaves the store
unchanged. -/
theorem updateSubAdmin_frame_witness :
    updateSubAdmin [] 5 (some "n") none none =
      ([], ⟨404, "Sub-admin not found", none, none⟩) :=
  (updateSubAdmin_frame [] 5 (some "n") none none).1 rfl

/-- C8: the delete answers 404 with the store unchanged whenever no record
with the given id has role sub-admin — in particular when the id names the
admin account, which therefore stays in the store — and otherwise removes
exactly the first matching sub-admin record and answers 200. -/
theorem deleteSubAdmin_spec (st : List User) (id : Nat) :
    ((∀ u ∈ st, u.id = id → u.role ≠ Role.subAdmin) →
        deleteSubAdmin st id = (st, ⟨404, "Sub-admin not found", none, none⟩)) ∧
      (∀ u, st.find? (matchesSubAdmin id) = some u →
        u.id = id ∧ u.role = Role.subAdmin ∧
        ∃ pre post, st = pre ++ u :: post ∧
          (∀ v ∈ pre, matchesSubAdmin id v = false) ∧
          deleteSubAdmin st id =
            (pre ++ post, ⟨200, "Sub-admin deleted successfully", none, none⟩)) := by
  constructor
  · intro h
    have hf : st.find? (matchesSubAdmin id) = none := by
      rw [List.find?_eq_none]
      intro x hx hpx
      have hm := of_decide_eq_true hpx
      exact (h x hx hm.1) hm.2
    simp [deleteSubAdmin, hf]
  · intro u hu
    have hm : u.id = id ∧ u.role = Role.subAdmin := by
      simpa [matchesSubAdmin] using List.find?_some hu
    obtain ⟨pre, post, hst, hpre, _, hdel⟩ :=
      find?_decomp (matchesSubAdmin id) (fun v => v) st u hu
    exact ⟨hm.1, hm.2, pre, post, hst, hpre, by simp [deleteSubAdmin, hu, hdel]⟩

/-- Witness for C8: deleting the admin account id through the sub-admin
path answers 404 and the admin record stays in the store. -/
theorem deleteSubAdmin_spec_witness :
    deleteSubAdmin [⟨7, "Admin", "admin@example.com", "h", Role.admin, allTruePerms⟩] 7 =
      ([⟨7, "Admin", "admin@example.com", "h", Role.admin, allTruePerms⟩],
        ⟨404, "Sub-admin not found", none, none⟩) :=
  (deleteSubAdmin_spec
    [⟨7, "Admin", "admin@example.com", "h", Role.admin, allTruePerms⟩] 7).1
    (by decide)

/-- C9: whichever creation path runs (sub-admin creation with any shape of
caller-supplied permissions input, or admin bootstrap), the stored record has
all four permission keys present; on the sub-admin path a key the caller did
not set is stored as `false`. -/
theorem created_permissions_complete (derive : String → String) (freshId : Nat)
    (st : List User) (n e pw : String) (input : Option PermRecord)
    (k : PermName) :
    (st.find? (hasEmail e) = none →
        ∃ u, (createSubAdmin derive freshId st n e pw input).1 = st ++ [u] ∧
          (u.permissions.get k).isSome = true ∧
          ((input.getD emptyPerms).get k = none →
            u.permissions.get k = some false)) ∧
      (st.find? isAdminRecord = none →
        ∃ u, (adminSignup derive freshId st n e pw).1 = st ++ [u] ∧
          (u.permissions.get k).isSome = true) := by
  constructor
  · intro h
    refine ⟨⟨freshId, n, e, derive pw, Role.subAdmin,
        applySchemaDefaults (input.getD emptyPerms)⟩, ?_, ?_, ?_⟩
    · simp [createSubAdmin, h]
    · cases k <;> simp [applySchemaDefaults, PermRecord.get]
    · intro hk
      cases k <;> simp_all [applySchemaDefaults, PermRecord.get]
  · intro h
    refine ⟨⟨freshId, n, e, derive pw, Role.admin,
        applySchemaDefaults allTruePerms⟩, ?_, ?_⟩
    · simp [adminSignup, h]
    · cases k <;> simp [applySchemaDefaults, allTruePerms, PermRecord.get]

/-- Witness for C9: the spec example — a sub-admin created with only
`{dashboard: true}` gets a stored `collegeManagement` key, present and
`false`. -/
theorem created_permissions_complete_witness :
    ∃ u, (createSubAdmin (fun s => s) 1 [] "Sub" "sub1@example.com" "pw"
        (some ⟨some true, none, none, none⟩)).1 = [] ++ [u] ∧
      (u.permissions.get PermName.collegeManagement).isSome = true ∧
      (((some (⟨some true, none, none, none⟩ : PermRecord)).getD
          emptyPerms).get PermName.collegeManagement = none →
        u.permissions.get PermName.collegeManagement = some false) :=
  (created_permissions_complete (fun s => s) 1 [] "Sub" "sub1@example.com" "pw"
    (some ⟨some true, none, none, none⟩) PermName.collegeManagement).1 rfl

end AdminApi
